import Mathlib

/-!
Shallow embedding of `scripts/generate_inventory.py`, a small tool that
resolves a numbered sequence of candidate hostnames and writes the
reachable ones into a YAML-shaped inventory file.

The external world is modelled by two oracles:
* `resolve : String → Except GaiError String` stands for
  `socket.gethostbyname`: it either returns the resolved address string
  or raises a `socket.gaierror` (the only exception class raised in the
  lookup path and the only one the script catches there);
* an optional exception injection `exn : Option (Nat × String)` for the
  serialization phase: `some (k, e)` means the k-th operation performed
  inside the `try:` block (opening the file, each `f.write` call, each
  summary `print` call) raises a Python `Exception` whose message is `e`.

Machine integers in the script are Python `int`s (unbounded), so they are
embedded as `Int`; the two counters only ever grow from 0 and are `Nat`.
Console progress lines printed outside the `try:` block (the per-domain
ping lines and the banner) are not modelled; the summary prints inside
the `try:` block are, because the exception handler covers them.
-/

/-- A `socket.gaierror` raised by a failed lookup, carrying its message. -/
structure GaiError where
  msg : String
deriving DecidableEq, Repr

/-- `ping_domain(domain, timeout=3)`: calls `socket.gethostbyname(domain)`
and returns the address, or `None` when the lookup raises
`socket.gaierror`.  The `timeout` parameter appears in the signature but
is never used in the body. -/
def ping_domain (resolve : String → Except GaiError String)
    (domain : String) (timeout : Int) : Option String :=
  match resolve domain with
  | Except.ok ip => some ip
  | Except.error _ => none

/-- Python truthiness of the `Optional[str]` value tested by `if ip:`:
`None` and the empty string are falsy, every other string is truthy. -/
def isTruthy : Option String → Bool
  | none => false
  | some s => !s.isEmpty

/-- Substitution of `arg` for each `\x7b\x7d` placeholder pair in a
character sequence. -/
def substFormat (arg : String) : List Char → List Char
  | [] => []
  | '\x7b' :: '\x7d' :: rest => arg.data ++ substFormat arg rest
  | c :: rest => c :: substFormat arg rest

/-- `domain_template.format(num)`: the template holds exactly one
positional placeholder `\x7b\x7d` (per the CLI contract), and
`str.format` substitutes the decimal rendering of `num` for it. -/
def formatDomain (domain_template : String) (num : Int) : String :=
  { data := substFormat (toString num) domain_template.data }

/-- `range(start_num, end_num + 1)` over Python ints, as an ascending
list; empty when `start_num > end_num`. -/
def rangeList (start_num end_num : Int) : List Int :=
  (List.range (end_num + 1 - start_num).toNat).map
    (fun (i : Nat) => start_num + (i : Int))

/-- One entry of `inventory["all"]["children"]["servers"]["hosts"]`:
the dict key (`f"server-{num}"`) together with the five-field value dict. -/
structure ServerRecord where
  num : Int
  hostKey : String
  ansible_host : String
  ansible_user : String
  ansible_port : Int
  server_domain : String
  server_name : String
deriving DecidableEq, Repr

/-- The loop state of `generate_inventory`: the domains passed to
`ping_domain` so far, the accumulated `hosts` dict (its keys
`f"server-{num}"` are pairwise distinct because the loop numbers are, so
the insertion-ordered dict is faithfully a list), and the two counters. -/
structure LoopState where
  queries : List String
  records : List ServerRecord
  successful_pings : Nat
  failed_pings : Nat
deriving Repr

/-- One iteration of the `for num in range(start_num, end_num + 1)` loop:
format the domain, ping it, and on a truthy result append the record
(with the hardcoded display-name special cases for 8 and 61) and bump
`successful_pings`, otherwise bump `failed_pings`. -/
def processNum (resolve : String → Except GaiError String)
    (domain_template ansible_user : String) (ansible_port : Int)
    (st : LoopState) (num : Int) : LoopState :=
  let domain := formatDomain domain_template num
  let ip := ping_domain resolve domain 3
  if isTruthy ip then
    let server_name :=
      if num = 8 then "router-1"
      else if num = 61 then "router-2"
      else "server-" ++ toString num
    { queries := st.queries ++ [domain]
      records := st.records ++
        [{ num := num
           hostKey := "server-" ++ toString num
           ansible_host := ip.getD ""
           ansible_user := ansible_user
           ansible_port := ansible_port
           server_domain := domain
           server_name := server_name }]
      successful_pings := st.successful_pings + 1
      failed_pings := st.failed_pings }
  else
    { st with queries := st.queries ++ [domain]
              failed_pings := st.failed_pings + 1 }

/-- The whole ping loop of `generate_inventory`. -/
def pingLoop (resolve : String → Except GaiError String)
    (start_num end_num : Int)
    (domain_template ansible_user : String) (ansible_port : Int) : LoopState :=
  (rangeList start_num end_num).foldl
    (processNum resolve domain_template ansible_user ansible_port)
    { queries := [], records := [], successful_pings := 0, failed_pings := 0 }

/-- The six `f.write` calls emitted for one server record, in order. -/
def blockWrites (r : ServerRecord) : List String :=
  [ "                " ++ r.hostKey ++ ":\n"
  , "                    ansible_host: " ++ r.ansible_host ++ "\n"
  , "                    ansible_user: " ++ r.ansible_user ++ "\n"
  , "                    ansible_port: " ++ toString r.ansible_port ++ "\n"
  , "                    server_domain: \"" ++ r.server_domain ++ "\"\n"
  , "                    server_name: \"" ++ r.server_name ++ "\"\n" ]

/-- The `f.write` calls of the `for i, (server_name, server_data) in
enumerate(server_hosts.items())` loop: each record's six lines, with one
extra `"\n"` written after every record except the last
(`if i < len(server_hosts) - 1`). -/
def serverWrites : List ServerRecord → List String
  | [] => []
  | [r] => blockWrites r
  | r :: rest => blockWrites r ++ ["\n"] ++ serverWrites rest

/-- Every string passed to `f.write` by the serialization code, in
order: the five header lines, the per-server writes, the unconditional
`f.write("\n")` after the loop, and the three local-host footer lines. -/
def writesFor (rs : List ServerRecord) : List String :=
  [ "---\n", "all:\n", "    children:\n", "        servers:\n"
  , "            hosts:\n" ]
  ++ serverWrites rs
  ++ [ "\n", "    hosts:\n", "        localhost:\n"
     , "            ansible_connection: local\n" ]

/-- The full text of the output file when every write succeeds. -/
def renderInventory (rs : List ServerRecord) : String :=
  String.join (writesFor rs)

/-- The serialized text of a single server block (its six lines joined). -/
def renderServerBlock (r : ServerRecord) : String :=
  String.join (blockWrites r)

/-- The lines printed by the summary code inside the `try:` block, in
order; the per-server listing is emitted only when at least one ping
succeeded. -/
def summaryPrints (successful_pings failed_pings : Nat)
    (rs : List ServerRecord) : List String :=
  [ "✅ Inventory успешно сохранен!"
  , "📊 Статистика:"
  , "   - Успешных пингов: " ++ toString successful_pings
  , "   - Неудачных пингов: " ++ toString failed_pings
  , "   - Всего проверено: " ++ toString (successful_pings + failed_pings) ]
  ++ (if successful_pings > 0 then
        ("\n🎯 Найдено " ++ toString successful_pings ++ " активных серверов:")
          :: rs.map (fun r =>
            "   - " ++ r.hostKey ++ ": " ++ r.ansible_host ++ " ("
              ++ r.server_domain ++ ")")
      else [])

/-- One operation performed inside the `try:` block. -/
inductive Step where
  | fopen : Step
  | fwrite (s : String) : Step
  | fprint (s : String) : Step
deriving DecidableEq, Repr

/-- The operations of the `try:` block in execution order: `open`, every
`f.write`, then every summary `print`. -/
def trySteps (rs : List ServerRecord) (successful_pings failed_pings : Nat) :
    List Step :=
  Step.fopen :: (writesFor rs).map Step.fwrite
    ++ (summaryPrints successful_pings failed_pings rs).map Step.fprint

/-- Runs the operations of the `try:` block under the exception oracle:
`some (k, e)` raises `e` at the k-th remaining operation.  Returns the
strings actually written to the file, the lines actually printed, and
the raised exception message if any (execution stops at the raise). -/
def runSteps : List Step → Option (Nat × String) →
    List String × List String × Option String
  | [], _ => ([], [], none)
  | _ :: _, some (0, e) => ([], [], some e)
  | s :: rest, some (Nat.succ k, e) =>
    let result := runSteps rest (some (k, e))
    match s with
    | Step.fopen => result
    | Step.fwrite w => (w :: result.1, result.2.1, result.2.2)
    | Step.fprint p => (result.1, p :: result.2.1, result.2.2)
  | s :: rest, none =>
    let result := runSteps rest none
    match s with
    | Step.fopen => result
    | Step.fwrite w => (w :: result.1, result.2.1, result.2.2)
    | Step.fprint p => (result.1, p :: result.2.1, result.2.2)

/-- Exit behaviour of a run: `normal` is an ordinary return (process
status 0), `exited c` is `sys.exit(c)`. -/
inductive ExitStatus where
  | normal : ExitStatus
  | exited (code : Int) : ExitStatus
deriving DecidableEq, Repr

/-- The process exit code an `ExitStatus` yields. -/
def ExitStatus.code : ExitStatus → Int
  | ExitStatus.normal => 0
  | ExitStatus.exited c => c

/-- Observable outcome of `generate_inventory`: the domains resolved, the
accumulated records and counters, the content of the output file (`none`
when the file was never created because `open` itself raised; on a raise
after `open` the `with` block flushes, so the file holds the writes that
completed), the summary lines printed, the error report printed by the
`except` handler if it fired, and the exit behaviour. -/
structure GenResult where
  queries : List String
  records : List ServerRecord
  successful_pings : Nat
  failed_pings : Nat
  written : Option String
  prints : List String
  report : Option String
  status : ExitStatus
deriving Repr

/-- `generate_inventory(start_num, end_num, domain_template, output_file,
ansible_user, ansible_port)`: ping every number of the inclusive range,
then serialize inside `try: ... except Exception as e: print(...);
sys.exit(1)`.  `output_file` is only a path and does not influence the
modelled observables. -/
def generate_inventory (resolve : String → Except GaiError String)
    (start_num end_num : Int)
    (domain_template output_file ansible_user : String) (ansible_port : Int)
    (exn : Option (Nat × String)) : GenResult :=
  let _path := output_file
  let st := pingLoop resolve start_num end_num domain_template ansible_user
    ansible_port
  let steps := trySteps st.records st.successful_pings st.failed_pings
  let run := runSteps steps exn
  match run.2.2 with
  | none =>
    { queries := st.queries, records := st.records
      successful_pings := st.successful_pings
      failed_pings := st.failed_pings
      written := some (String.join run.1)
      prints := run.2.1, report := none, status := ExitStatus.normal }
  | some e =>
    { queries := st.queries, records := st.records
      successful_pings := st.successful_pings
      failed_pings := st.failed_pings
      written := match exn with
        | some (0, _) => none
        | _ => some (String.join run.1)
      prints := run.2.1
      report := some ("❌ Ошибка при сохранении файла: " ++ e)
      status := ExitStatus.exited 1 }

/-- Observable outcome of `main`: `gen` is the result of
`generate_inventory` when it was reached at all. -/
structure MainResult where
  gen : Option GenResult
  status : ExitStatus
deriving Repr

namespace Script

/-- `main()` after argument parsing: when `args.start > args.end` it
prints an error and calls `sys.exit(1)` before any other work; otherwise
it runs `generate_inventory` and returns normally with its status. -/
def main (resolve : String → Except GaiError String)
    (start_arg end_arg : Int)
    (domain_template output_file ansible_user : String) (ansible_port : Int)
    (exn : Option (Nat × String)) : MainResult :=
  if start_arg > end_arg then
    { gen := none, status := ExitStatus.exited 1 }
  else
    let g := generate_inventory resolve start_arg end_arg domain_template
      output_file ansible_user ansible_port exn
    { gen := some g, status := g.status }

end Script

/-- The domains a whole run passed to the resolver (none when
`generate_inventory` was never reached). -/
def MainResult.dnsQueries (m : MainResult) : List String :=
  match m.gen with
  | none => []
  | some g => g.queries

/-- The output-file content a whole run produced (`none` when the file
was never written). -/
def MainResult.writtenFile (m : MainResult) : Option String :=
  match m.gen with
  | none => none
  | some g => g.written

/-- Whether the resolver succeeds on a domain (the lookup does not raise). -/
def resolvesOk (resolve : String → Except GaiError String) (d : String) :
    Bool :=
  match resolve d with
  | Except.ok _ => true
  | Except.error _ => false

/-- Whether the loop's `if ip:` test passes for number `n`. -/
def pingOkNum (resolve : String → Except GaiError String)
    (domain_template : String) (n : Int) : Bool :=
  isTruthy (ping_domain resolve (formatDomain domain_template n) 3)

/-- The record the loop would build for number `n` (meaningful when the
ping was truthy). -/
def recordFor (resolve : String → Except GaiError String)
    (domain_template ansible_user : String) (ansible_port : Int)
    (n : Int) : ServerRecord :=
  { num := n
    hostKey := "server-" ++ toString n
    ansible_host := (ping_domain resolve (formatDomain domain_template n) 3).getD ""
    ansible_user := ansible_user
    ansible_port := ansible_port
    server_domain := formatDomain domain_template n
    server_name :=
      if n = 8 then "router-1"
      else if n = 61 then "router-2"
      else "server-" ++ toString n }

/-- The record the loop appends for number `n`, if any. -/
def recordForOpt (resolve : String → Except GaiError String)
    (domain_template ansible_user : String) (ansible_port : Int)
    (n : Int) : Option ServerRecord :=
  if pingOkNum resolve domain_template n then
    some (recordFor resolve domain_template ansible_user ansible_port n)
  else none

/-- The string a `Step` writes to the file, if it is a write. -/
def stepWrite : Step → Option String
  | Step.fwrite s => some s
  | _ => none

/-- The line a `Step` prints, if it is a print. -/
def stepPrint : Step → Option String
  | Step.fprint s => some s
  | _ => none

/-- The five header lines of the output file, joined. -/
def inventoryHeader : String :=
  "---\nall:\n    children:\n        servers:\n            hosts:\n"

/-- The three local-host footer lines of the output file, joined. -/
def inventoryFooter : String :=
  "    hosts:\n        localhost:\n            ansible_connection: local\n"

/-- A concrete resolver for witnesses: `vpn-8.tgvpnbot.com` resolves to
`203.0.113.8`, everything else raises. -/
def demoResolve : String → Except GaiError String := fun d =>
  if d = "vpn-8.tgvpnbot.com" then Except.ok "203.0.113.8"
  else Except.error { msg := "Name or service not known" }

/-- The default domain template of the CLI. -/
def demoTemplate : String := "vpn-\x7b\x7d.tgvpnbot.com"

/-- The record a run over range `[8, 8]` with `demoResolve` produces. -/
def sampleRecord : ServerRecord :=
  { num := 8
    hostKey := "server-8"
    ansible_host := "203.0.113.8"
    ansible_user := "vpnuser"
    ansible_port := 11041
    server_domain := "vpn-8.tgvpnbot.com"
    server_name := "router-1" }

/-- A record whose quoted fields contain a double-quote character. -/
def quotedRecord : ServerRecord :=
  { num := 1
    hostKey := "server-1"
    ansible_host := "203.0.113.1"
    ansible_user := "vpnuser"
    ansible_port := 11041
    server_domain := "a\"b"
    server_name := "c\"d" }

/-! ## Basic string and list lemmas -/

lemma foldl_append_str (l : List String) :
    ∀ a : String, l.foldl (· ++ ·) a = a ++ l.foldl (· ++ ·) "" := by
  induction l with
  | nil => intro a; simp [String.append_empty]
  | cons b t ih =>
    intro a
    simp only [List.foldl_cons]
    rw [ih (a ++ b), ih ("" ++ b), String.empty_append, String.append_assoc]

lemma join_cons (a : String) (l : List String) :
    String.join (a :: l) = a ++ String.join l := by
  simp only [String.join, List.foldl_cons]
  rw [foldl_append_str l ("" ++ a), String.empty_append]

lemma join_append (l1 l2 : List String) :
    String.join (l1 ++ l2) = String.join l1 ++ String.join l2 := by
  induction l1 with
  | nil => simp [String.join, String.empty_append]
  | cons a t ih =>
    rw [List.cons_append, join_cons, join_cons, ih, String.append_assoc]

lemma isEmpty_false_of_ne (s : String) (h : s ≠ "") : s.isEmpty = false := by
  rw [Bool.eq_false_iff]
  intro hh
  exact h ((String.isEmpty_iff s).mp hh)

/-! ## The ping loop, characterized -/

lemma pingLoop_foldl (resolve : String → Except GaiError String)
    (tmpl user : String) (port : Int) :
    ∀ (nums : List Int) (st : LoopState),
      nums.foldl (processNum resolve tmpl user port) st =
        { queries := st.queries ++ nums.map (formatDomain tmpl)
          records := st.records ++ nums.filterMap (recordForOpt resolve tmpl user port)
          successful_pings := st.successful_pings + nums.countP (pingOkNum resolve tmpl)
          failed_pings := st.failed_pings + nums.countP (fun n => !pingOkNum resolve tmpl n) } := by
  intro nums
  induction nums with
  | nil => intro st; simp
  | cons n t ih =>
    intro st
    rw [List.foldl_cons, ih]
    by_cases h : isTruthy (ping_domain resolve (formatDomain tmpl n) 3) = true
    · have hp : pingOkNum resolve tmpl n = true := by simpa [pingOkNum] using h
      simp [processNum, h, hp, recordForOpt, recordFor, List.filterMap_cons,
        List.countP_cons, List.append_assoc, Nat.add_comm, Nat.add_assoc,
        Nat.add_left_comm]
    · have hp : pingOkNum resolve tmpl n = false := by
        simpa [pingOkNum] using h
      simp [processNum, h, hp, recordForOpt, List.filterMap_cons,
        List.countP_cons, List.append_assoc, Nat.add_comm, Nat.add_assoc,
        Nat.add_left_comm]

lemma pingLoop_eq (resolve : String → Except GaiError String)
    (s e : Int) (tmpl user : String) (port : Int) :
    pingLoop resolve s e tmpl user port =
      { queries := (rangeList s e).map (formatDomain tmpl)
        records := (rangeList s e).filterMap (recordForOpt resolve tmpl user port)
        successful_pings := (rangeList s e).countP (pingOkNum resolve tmpl)
        failed_pings := (rangeList s e).countP (fun n => !pingOkNum resolve tmpl n) } := by
  rw [pingLoop, pingLoop_foldl]
  simp

/-! ## The number range -/

lemma rangeList_length (s e : Int) :
    (rangeList s e).length = (e + 1 - s).toNat := by
  rw [rangeList, List.length_map, List.length_range]

lemma rangeList_pairwise (s e : Int) :
    (rangeList s e).Pairwise (· < ·) := by
  rw [rangeList]
  refine List.pairwise_map.mpr ?_
  refine (List.pairwise_lt_range _).imp ?_
  intro a b hab
  show s + (a : Int) < s + (b : Int)
  omega

lemma mem_rangeList (s e n : Int) :
    n ∈ rangeList s e ↔ s ≤ n ∧ n ≤ e := by
  rw [rangeList, List.mem_map]
  constructor
  · rintro ⟨i, hi, rfl⟩
    rw [List.mem_range] at hi
    omega
  · rintro ⟨h1, h2⟩
    exact ⟨(n - s).toNat, List.mem_range.mpr (by omega), by omega⟩

/-! ## Projections of `generate_inventory` that do not depend on the
exception oracle -/

lemma generate_inventory_records (resolve : String → Except GaiError String)
    (s e : Int) (tmpl out user : String) (port : Int)
    (exn : Option (Nat × String)) :
    (generate_inventory resolve s e tmpl out user port exn).records =
      (pingLoop resolve s e tmpl user port).records := by
  rcases hrun : (runSteps (trySteps (pingLoop resolve s e tmpl user port).records
      (pingLoop resolve s e tmpl user port).successful_pings
      (pingLoop resolve s e tmpl user port).failed_pings) exn).2.2 with _ | err
  · simp [generate_inventory, hrun]
  · simp [generate_inventory, hrun]

lemma generate_inventory_counts (resolve : String → Except GaiError String)
    (s e : Int) (tmpl out user : String) (port : Int)
    (exn : Option (Nat × String)) :
    (generate_inventory resolve s e tmpl out user port exn).successful_pings =
        (pingLoop resolve s e tmpl user port).successful_pings ∧
      (generate_inventory resolve s e tmpl out user port exn).failed_pings =
        (pingLoop resolve s e tmpl user port).failed_pings := by
  rcases hrun : (runSteps (trySteps (pingLoop resolve s e tmpl user port).records
      (pingLoop resolve s e tmpl user port).successful_pings
      (pingLoop resolve s e tmpl user port).failed_pings) exn).2.2 with _ | err
  · simp [generate_inventory, hrun]
  · simp [generate_inventory, hrun]

/-! ## Running the try block -/

lemma runSteps_none (steps : List Step) :
    runSteps steps none =
      (steps.filterMap stepWrite, steps.filterMap stepPrint, none) := by
  induction steps with
  | nil => rfl
  | cons s rest ih =>
    cases s <;> simp [runSteps, ih, stepWrite, stepPrint, List.filterMap_cons]

lemma runSteps_raise (e : String) :
    ∀ (steps : List Step) (k : Nat),
      (runSteps steps (some (k, e))).2.2 =
        if k < steps.length then some e else none := by
  intro steps
  induction steps with
  | nil => intro k; simp [runSteps]
  | cons s rest ih =>
    intro k
    cases k with
    | zero => simp [runSteps]
    | succ k =>
      cases s <;> simp [runSteps, ih k, Nat.succ_lt_succ_iff]

lemma trySteps_writes (rs : List ServerRecord) (a b : Nat) :
    (trySteps rs a b).filterMap stepWrite = writesFor rs := by
  simp only [trySteps, List.filterMap_cons, List.filterMap_append,
    List.filterMap_map, Function.comp_def, stepWrite]
  simp

/-! ## Structure of the serialized text -/

lemma join_header :
    String.join [ "---\n", "all:\n", "    children:\n", "        servers:\n"
      , "            hosts:\n" ] = inventoryHeader := by
  decide

lemma join_footer :
    String.join [ "\n", "    hosts:\n", "        localhost:\n"
      , "            ansible_connection: local\n" ] = "\n" ++ inventoryFooter := by
  decide

lemma join_nil : String.join [] = "" := rfl

lemma serverWrites_join (rs : List ServerRecord) :
    String.join (serverWrites rs) =
      String.join ((rs.map renderServerBlock).intersperse "\n") := by
  induction rs with
  | nil => rfl
  | cons r rest ih =>
    cases rest with
    | nil =>
      simp [serverWrites, renderServerBlock, join_cons, join_nil,
        String.append_empty]
    | cons b t =>
      rw [show serverWrites (r :: b :: t)
            = blockWrites r ++ ["\n"] ++ serverWrites (b :: t) from rfl]
      rw [join_append, join_append, ih]
      simp only [List.map_cons]
      rw [List.intersperse_cons_cons, join_cons, join_cons]
      simp [renderServerBlock, join_cons, join_nil, String.append_assoc,
        String.append_empty]

lemma renderInventory_blocks (rs : List ServerRecord) :
    renderInventory rs = inventoryHeader
      ++ String.join ((rs.map renderServerBlock).intersperse "\n")
      ++ "\n" ++ inventoryFooter := by
  rw [renderInventory, writesFor, join_append, join_append, serverWrites_join,
    join_header, join_footer]
  simp [String.append_assoc]

lemma join_intersperse_mem (x : String) :
    ∀ l : List String, x ∈ l →
      ∃ p q, String.join (l.intersperse "\n") = p ++ x ++ q := by
  intro l
  induction l with
  | nil => intro h; cases h
  | cons a t ih =>
    intro h
    rcases List.mem_cons.mp h with rfl | hx
    · cases t with
      | nil =>
        refine ⟨"", "", ?_⟩
        simp [join_cons, join_nil, String.append_empty, String.empty_append]
      | cons b t2 =>
        refine ⟨"", "\n" ++ String.join ((b :: t2).intersperse "\n"), ?_⟩
        rw [List.intersperse_cons_cons, join_cons, join_cons]
        simp [String.empty_append, String.append_assoc]
    · cases t with
      | nil => cases hx
      | cons b t2 =>
        obtain ⟨p, q, hpq⟩ := ih hx
        refine ⟨a ++ "\n" ++ p, q, ?_⟩
        rw [List.intersperse_cons_cons, join_cons, join_cons, hpq]
        simp [String.append_assoc]

lemma renderServerBlock_decomp (r : ServerRecord) :
    renderServerBlock r =
      ("                " ++ r.hostKey ++ ":\n"
        ++ ("                    ansible_host: " ++ r.ansible_host ++ "\n")
        ++ ("                    ansible_user: " ++ r.ansible_user ++ "\n")
        ++ ("                    ansible_port: " ++ toString r.ansible_port ++ "\n"))
      ++ (("                    server_domain: \"" ++ r.server_domain ++ "\"\n")
        ++ ("                    server_name: \"" ++ r.server_name ++ "\"\n")) := by
  simp [renderServerBlock, blockWrites, join_cons, join_nil,
    String.append_assoc, String.append_empty]

/-! ## Counting helpers -/

lemma countP_add_countP_not (l : List Int) (p : Int → Bool) :
    l.countP p + l.countP (fun n => !p n) = l.length := by
  induction l with
  | nil => rfl
  | cons a t ih =>
    by_cases h : p a = true <;>
      · simp [List.countP_cons, h]
        omega

lemma filterMap_recordForOpt (resolve : String → Except GaiError String)
    (tmpl user : String) (port : Int) (l : List Int) :
    l.filterMap (recordForOpt resolve tmpl user port) =
      (l.filter (pingOkNum resolve tmpl)).map
        (recordFor resolve tmpl user port) := by
  induction l with
  | nil => rfl
  | cons n t ih =>
    by_cases h : pingOkNum resolve tmpl n = true <;>
      simp [List.filterMap_cons, List.filter_cons, recordForOpt, h, ih]

/-! ## Claim theorems -/

/-- C5: `ping_domain` returns the resolved address string when the lookup
succeeds, and returns `none` whenever the lookup raises, whatever the
error was: no error propagates out of it and every failure cause yields
the same "not found" result. -/
theorem ping_domain_spec (resolve : String → Except GaiError String)
    (domain : String) (timeout : Int) :
    (∀ ip, resolve domain = Except.ok ip →
        ping_domain resolve domain timeout = some ip)
    ∧ (∀ err, resolve domain = Except.error err →
        ping_domain resolve domain timeout = none) := by
  constructor
  · intro ip h
    simp [ping_domain, h]
  · intro err h
    simp [ping_domain, h]

/-- Witness for C5 at a concrete resolver: success yields the address,
failure yields `none`. -/
theorem ping_domain_spec_witness :
    ping_domain demoResolve "vpn-8.tgvpnbot.com" 3 = some "203.0.113.8"
    ∧ ping_domain demoResolve "vpn-9.tgvpnbot.com" 3 = none :=
  ⟨(ping_domain_spec demoResolve "vpn-8.tgvpnbot.com" 3).1 "203.0.113.8"
      (by rfl)
  , (ping_domain_spec demoResolve "vpn-9.tgvpnbot.com" 3).2
      { msg := "Name or service not known" } (by rfl)⟩

/-- C8: the `timeout` parameter of `ping_domain` has no effect on its
result: against the same DNS answers, any two timeout values give the
same result for every domain. -/
theorem ping_domain_timeout_irrelevant
    (resolve : String → Except GaiError String) (domain : String)
    (t1 t2 : Int) :
    ping_domain resolve domain t1 = ping_domain resolve domain t2 := rfl

/-- C6: when `start > end`, `main` performs zero DNS resolutions, writes
no output file, and exits with status 1. -/
theorem main_rejects_reversed_range
    (resolve : String → Except GaiError String) (s e : Int)
    (tmpl out user : String) (port : Int) (exn : Option (Nat × String))
    (h : s > e) :
    (Script.main resolve s e tmpl out user port exn).dnsQueries = []
    ∧ (Script.main resolve s e tmpl out user port exn).writtenFile = none
    ∧ (Script.main resolve s e tmpl out user port exn).status
        = ExitStatus.exited 1 := by
  simp [Script.main, h, MainResult.dnsQueries, MainResult.writtenFile]

/-- Witness for C6 at the concrete reversed range (5, 3). -/
theorem main_rejects_reversed_range_witness :
    (Script.main demoResolve 5 3 demoTemplate "actual_servers.yml" "vpnuser"
        11041 none).dnsQueries = []
    ∧ (Script.main demoResolve 5 3 demoTemplate "actual_servers.yml" "vpnuser"
        11041 none).writtenFile = none
    ∧ (Script.main demoResolve 5 3 demoTemplate "actual_servers.yml" "vpnuser"
        11041 none).status = ExitStatus.exited 1 :=
  main_rejects_reversed_range demoResolve 5 3 demoTemplate "actual_servers.yml"
    "vpnuser" 11041 none (by decide)

/-- C3: every record in the inventory has display name `router-1` for
number 8, `router-2` for number 61, and `server-{number}` otherwise,
while its host key is `server-{number}` for every number. -/
theorem record_names_special_cases
    (resolve : String → Except GaiError String) (s e : Int)
    (tmpl out user : String) (port : Int) (exn : Option (Nat × String))
    (r : ServerRecord)
    (hr : r ∈ (generate_inventory resolve s e tmpl out user port exn).records) :
    r.server_name = (if r.num = 8 then "router-1"
        else if r.num = 61 then "router-2" else "server-" ++ toString r.num)
    ∧ r.hostKey = "server-" ++ toString r.num := by
  rw [generate_inventory_records, pingLoop_eq] at hr
  simp only [filterMap_recordForOpt] at hr
  obtain ⟨n, hn, rfl⟩ := List.mem_map.mp hr
  exact ⟨rfl, rfl⟩

/-- Witness for C3: the record produced for number 8 by a concrete run. -/
theorem record_names_special_cases_witness :
    sampleRecord.server_name = (if sampleRecord.num = 8 then "router-1"
        else if sampleRecord.num = 61 then "router-2"
        else "server-" ++ toString sampleRecord.num)
    ∧ sampleRecord.hostKey = "server-" ++ toString sampleRecord.num :=
  record_names_special_cases demoResolve 8 8 demoTemplate "actual_servers.yml"
    "vpnuser" 11041 none sampleRecord (by decide)

/-- C2: for `start ≤ end`, the number of records equals the final success
counter and the two counters sum to `end - start + 1`. -/
theorem inventory_counters_consistent
    (resolve : String → Except GaiError String) (s e : Int)
    (tmpl out user : String) (port : Int) (exn : Option (Nat × String))
    (hrange : s ≤ e) :
    (generate_inventory resolve s e tmpl out user port exn).records.length
        = (generate_inventory resolve s e tmpl out user port exn).successful_pings
    ∧ ((generate_inventory resolve s e tmpl out user port exn).successful_pings
          : Int)
        + (generate_inventory resolve s e tmpl out user port exn).failed_pings
        = e - s + 1 := by
  obtain ⟨hsucc, hfail⟩ :=
    generate_inventory_counts resolve s e tmpl out user port exn
  rw [generate_inventory_records, hsucc, hfail, pingLoop_eq]
  constructor
  · simp only
    rw [filterMap_recordForOpt, List.length_map,
      ← List.countP_eq_length_filter]
  · simp only
    have h1 := countP_add_countP_not (rangeList s e) (pingOkNum resolve tmpl)
    have h2 := rangeList_length s e
    omega

/-- Witness for C2 at a concrete run over the range [8, 9]. -/
theorem inventory_counters_consistent_witness :
    (generate_inventory demoResolve 8 9 demoTemplate "actual_servers.yml"
        "vpnuser" 11041 none).records.length
      = (generate_inventory demoResolve 8 9 demoTemplate "actual_servers.yml"
        "vpnuser" 11041 none).successful_pings
    ∧ ((generate_inventory demoResolve 8 9 demoTemplate "actual_servers.yml"
        "vpnuser" 11041 none).successful_pings : Int)
      + (generate_inventory demoResolve 8 9 demoTemplate "actual_servers.yml"
        "vpnuser" 11041 none).failed_pings = 9 - 8 + 1 :=
  inventory_counters_consistent demoResolve 8 9 demoTemplate
    "actual_servers.yml" "vpnuser" 11041 none (by decide)

/-- C1: for a valid range, the records of the run are exactly one record
per number of the inclusive range whose formatted hostname resolved
(none for failures, no duplicates), listed in strictly ascending numeric
order. -/
theorem inventory_records_exact_and_ordered
    (resolve : String → Except GaiError String) (s e : Int)
    (tmpl out user : String) (port : Int) (exn : Option (Nat × String))
    (hrange : s ≤ e)
    (hip : ∀ d ip, resolve d = Except.ok ip → ip ≠ "") :
    (generate_inventory resolve s e tmpl out user port exn).records.map
        ServerRecord.num
      = (rangeList s e).filter
          (fun n => resolvesOk resolve (formatDomain tmpl n))
    ∧ (generate_inventory resolve s e tmpl out user port exn).records.Pairwise
        (fun a b => a.num < b.num) := by
  have hpt : ∀ n : Int, pingOkNum resolve tmpl n
      = resolvesOk resolve (formatDomain tmpl n) := by
    intro n
    unfold pingOkNum resolvesOk ping_domain
    cases hr : resolve (formatDomain tmpl n) with
    | ok ip => simp [isTruthy, isEmpty_false_of_ne ip (hip _ ip hr)]
    | error g => simp [isTruthy]
  constructor
  · rw [generate_inventory_records, pingLoop_eq]
    simp only
    rw [filterMap_recordForOpt, List.map_map]
    have hid : (ServerRecord.num ∘ recordFor resolve tmpl user port) = id :=
      funext fun n => rfl
    rw [hid, List.map_id]
    exact List.filter_congr (fun n _ => hpt n)
  · rw [generate_inventory_records, pingLoop_eq]
    simp only
    rw [filterMap_recordForOpt]
    refine List.pairwise_map.mpr ?_
    refine ((rangeList_pairwise s e).filter _).imp ?_
    intro a b hab
    exact hab

/-- Witness for C1 at a concrete run over the range [8, 9] in which only
number 8 resolves. -/
theorem inventory_records_exact_and_ordered_witness :
    (generate_inventory demoResolve 8 9 demoTemplate "actual_servers.yml"
        "vpnuser" 11041 none).records.map ServerRecord.num
      = (rangeList 8 9).filter
          (fun n => resolvesOk demoResolve (formatDomain demoTemplate n))
    ∧ (generate_inventory demoResolve 8 9 demoTemplate "actual_servers.yml"
        "vpnuser" 11041 none).records.Pairwise (fun a b => a.num < b.num) :=
  inventory_records_exact_and_ordered demoResolve 8 9 demoTemplate
    "actual_servers.yml" "vpnuser" 11041 none (by decide)
    (by
      intro d ip h
      unfold demoResolve at h
      split at h
      · injection h with h2
        rw [← h2]
        decide
      · exact Except.noConfusion h)

set_option maxRecDepth 8192

/-- C4 (counterexample): the claim that no blank line follows the last
server block is false: for the run producing the single block of
`sampleRecord`, the file is not the header, the block, and then directly
the `    hosts:` section — it carries one extra blank line between the
block and that section. -/
theorem blank_line_after_last_block_counterexample :
    renderInventory [sampleRecord]
      ≠ inventoryHeader ++ renderServerBlock sampleRecord ++ inventoryFooter
    ∧ renderInventory [sampleRecord]
      = inventoryHeader ++ renderServerBlock sampleRecord ++ "\n"
          ++ inventoryFooter := by
  constructor
  · decide
  · decide

/-- C4 (amended): consecutive server blocks are separated by exactly one
`"\n"` write (one blank line, as every block ends in a newline), and one
blank line also follows the last server block: the top-level `    hosts:`
section is always preceded by a blank line, never attached directly. -/
theorem renderInventory_blank_line_structure (rs : List ServerRecord) :
    renderInventory rs = inventoryHeader
      ++ String.join ((rs.map renderServerBlock).intersperse "\n")
      ++ "\n" ++ inventoryFooter :=
  renderInventory_blocks rs

lemma generate_inventory_none_run (resolve : String → Except GaiError String)
    (s e : Int) (tmpl out user : String) (port : Int) :
    (generate_inventory resolve s e tmpl out user port none).written
        = some (renderInventory (pingLoop resolve s e tmpl user port).records)
    ∧ (generate_inventory resolve s e tmpl out user port none).status
        = ExitStatus.normal := by
  constructor <;>
    simp [generate_inventory, runSteps_none, trySteps_writes, renderInventory]

/-- C7: a valid range in which no number resolves still writes the output
file — the fixed header with an empty `hosts` mapping under `servers`,
then the `localhost` entry with connection mode `local` — and the process
exits with status 0. -/
theorem empty_inventory_still_written
    (resolve : String → Except GaiError String) (s e : Int)
    (tmpl out user : String) (port : Int)
    (hrange : s ≤ e)
    (hfail : ∀ n : Int, s ≤ n → n ≤ e →
      ∃ err, resolve (formatDomain tmpl n) = Except.error err) :
    (Script.main resolve s e tmpl out user port none).writtenFile
        = some ("---\nall:\n    children:\n        servers:\n            hosts:\n\n    hosts:\n        localhost:\n            ansible_connection: local\n")
    ∧ (Script.main resolve s e tmpl out user port none).status.code = 0 := by
  have hnot : ¬ s > e := not_lt.mpr hrange
  have hrec : (pingLoop resolve s e tmpl user port).records = [] := by
    rw [pingLoop_eq]
    simp only
    rw [filterMap_recordForOpt]
    have hfilter : (rangeList s e).filter (pingOkNum resolve tmpl) = [] := by
      rw [List.filter_eq_nil_iff]
      intro n hn
      obtain ⟨h1, h2⟩ := (mem_rangeList s e n).mp hn
      obtain ⟨err, herr⟩ := hfail n h1 h2
      simp [pingOkNum, ping_domain, herr, isTruthy]
    rw [hfilter, List.map_nil]
  obtain ⟨hw, hs⟩ := generate_inventory_none_run resolve s e tmpl out user port
  unfold Script.main
  rw [if_neg hnot]
  constructor
  · simp only [MainResult.writtenFile]
    rw [hw, hrec]
    exact congrArg some (by decide)
  · simp only
    rw [hs]
    rfl

/-- Witness for C7 at the concrete range [9, 9], where the only domain
fails to resolve. -/
theorem empty_inventory_still_written_witness :
    (Script.main demoResolve 9 9 demoTemplate "actual_servers.yml" "vpnuser"
        11041 none).writtenFile
      = some ("---\nall:\n    children:\n        servers:\n            hosts:\n\n    hosts:\n        localhost:\n            ansible_connection: local\n")
    ∧ (Script.main demoResolve 9 9 demoTemplate "actual_servers.yml" "vpnuser"
        11041 none).status.code = 0 :=
  empty_inventory_still_written demoResolve 9 9 demoTemplate
    "actual_servers.yml" "vpnuser" 11041 (by decide)
    (by
      intro n h1 h2
      have hn : n = 9 := le_antisymm h2 h1
      subst hn
      exact ⟨{ msg := "Name or service not known" }, by rfl⟩)

/-- C9: the serializer emits `server_domain` and `server_name` verbatim
between double quotes, with no escaping or validation: whatever
characters the fields hold (a double quote included) appear unmodified
inside the quoted fields of the output text. -/
theorem server_fields_written_verbatim (rs : List ServerRecord)
    (r : ServerRecord) (h : r ∈ rs) :
    ∃ p q, renderInventory rs =
      p ++ (("                    server_domain: \"" ++ r.server_domain
          ++ "\"\n")
        ++ ("                    server_name: \"" ++ r.server_name ++ "\"\n"))
        ++ q := by
  obtain ⟨p, q, hpq⟩ := join_intersperse_mem (renderServerBlock r)
    (rs.map renderServerBlock) (List.mem_map_of_mem _ h)
  refine ⟨inventoryHeader ++ (p ++ ("                " ++ r.hostKey ++ ":\n"
      ++ ("                    ansible_host: " ++ r.ansible_host ++ "\n")
      ++ ("                    ansible_user: " ++ r.ansible_user ++ "\n")
      ++ ("                    ansible_port: " ++ toString r.ansible_port
        ++ "\n")))
    , q ++ ("\n" ++ inventoryFooter), ?_⟩
  rw [renderInventory_blocks, hpq, renderServerBlock_decomp]
  simp [String.append_assoc]

/-- Witness for C9: a record whose quoted fields contain a double quote
is emitted verbatim. -/
theorem server_fields_written_verbatim_witness :
    ∃ p q, renderInventory [quotedRecord] =
      p ++ (("                    server_domain: \""
          ++ quotedRecord.server_domain ++ "\"\n")
        ++ ("                    server_name: \"" ++ quotedRecord.server_name
          ++ "\"\n")) ++ q :=
  server_fields_written_verbatim [quotedRecord] quotedRecord
    (List.mem_singleton.mpr rfl)

lemma generate_inventory_raise (resolve : String → Except GaiError String)
    (s e : Int) (tmpl out user : String) (port : Int) (k : Nat) (err : String)
    (hk : k < (trySteps (pingLoop resolve s e tmpl user port).records
        (pingLoop resolve s e tmpl user port).successful_pings
        (pingLoop resolve s e tmpl user port).failed_pings).length) :
    (generate_inventory resolve s e tmpl out user port (some (k, err))).status
        = ExitStatus.exited 1
    ∧ (generate_inventory resolve s e tmpl out user port (some (k, err))).report
        = some ("❌ Ошибка при сохранении файла: " ++ err) := by
  have h22 := runSteps_raise err (trySteps
    (pingLoop resolve s e tmpl user port).records
    (pingLoop resolve s e tmpl user port).successful_pings
    (pingLoop resolve s e tmpl user port).failed_pings) k
  rw [if_pos hk] at h22
  constructor <;> simp [generate_inventory, h22]

/-- C10: the serialization phase never lets an exception escape: a run
whose `try:` block completes returns normally with no error report, and
for every exception raised at any operation of the `try:` block (opening
the file, any write, or any summary print) the `except Exception` handler
reports it and the run exits with status 1. -/
theorem serialization_exceptions_caught
    (resolve : String → Except GaiError String) (s e : Int)
    (tmpl out user : String) (port : Int) :
    (∀ exn : Option (Nat × String),
      ((generate_inventory resolve s e tmpl out user port exn).status
            = ExitStatus.normal
          ∧ (generate_inventory resolve s e tmpl out user port exn).report
            = none)
        ∨ ((generate_inventory resolve s e tmpl out user port exn).status
            = ExitStatus.exited 1
          ∧ ∃ msg,
            (generate_inventory resolve s e tmpl out user port exn).report
              = some ("❌ Ошибка при сохранении файла: " ++ msg)))
    ∧ (∀ (k : Nat) (err : String),
        k < (trySteps (pingLoop resolve s e tmpl user port).records
            (pingLoop resolve s e tmpl user port).successful_pings
            (pingLoop resolve s e tmpl user port).failed_pings).length →
        (generate_inventory resolve s e tmpl out user port
            (some (k, err))).status = ExitStatus.exited 1
        ∧ (generate_inventory resolve s e tmpl out user port
            (some (k, err))).report
          = some ("❌ Ошибка при сохранении файла: " ++ err)) := by
  constructor
  · intro exn
    rcases hrun : (runSteps (trySteps
        (pingLoop resolve s e tmpl user port).records
        (pingLoop resolve s e tmpl user port).successful_pings
        (pingLoop resolve s e tmpl user port).failed_pings) exn).2.2
      with _ | msg
    · left
      constructor <;> simp [generate_inventory, hrun]
    · right
      refine ⟨by simp [generate_inventory, hrun], msg, ?_⟩
      simp [generate_inventory, hrun]
  · intro k err hk
    exact generate_inventory_raise resolve s e tmpl out user port k err hk

/-- Witness for C10: an exception injected at the fourth operation of the
`try:` block of a concrete run is caught, reported, and turned into exit
status 1. -/
theorem serialization_exceptions_caught_witness :
    (generate_inventory demoResolve 9 9 demoTemplate "actual_servers.yml"
        "vpnuser" 11041 (some (3, "No space left on device"))).status
      = ExitStatus.exited 1
    ∧ (generate_inventory demoResolve 9 9 demoTemplate "actual_servers.yml"
        "vpnuser" 11041 (some (3, "No space left on device"))).report
      = some ("❌ Ошибка при сохранении файла: " ++ "No space left on device") :=
  (serialization_exceptions_caught demoResolve 9 9 demoTemplate
    "actual_servers.yml" "vpnuser" 11041).2 3 "No space left on device"
    (by decide)
